import Mathlib

/-!
Verification development for the unified app-submission tool (src/submit_app.py).

The script orchestrates two external command-line tools: it builds an IPA package
with the xcode_project tool and then uploads it with the app_store_connect tool.
This file gives a shallow embedding of that orchestration logic:

  * command-line construction is embedded as pure functions on an `Args` record
    that mirrors the parsed argparse.Namespace, with Python truthiness made
    explicit (`None` and the empty string are falsy for string options, a
    pathlib.Path value is always truthy when present, the integer zero is falsy);
  * the external world (the two subprocess outcomes, filesystem existence
    queries, and the directory glob) is an explicit `World` record;
  * each stage returns its result together with a trace of observable effects
    (subprocess spawns and the fallback glob scan), so temporal properties such
    as "the publish subprocess is never spawned after a build failure" are
    statements about the trace;
  * the argparse mutually-exclusive required group for the project/workspace
    pair is embedded as a Boolean acceptance predicate, with the documented
    argparse behaviour of exiting with status 2 on a violated constraint;
  * the environment handed to both subprocesses is embedded as a merge of the
    ambient environment with the one-entry PYTHONPATH dict, second dict winning,
    which mirrors the Python dict-union in the script.

Filesystem paths are modelled as plain strings; pathlib.Path normalisation is
out of scope of the claims treated here.
-/

namespace SubmitAppTool

/-- Mirror of the single custom exception class of the script, SubmitAppException.
The script distinguishes failure kinds only by the message text. -/
structure SubmitAppException where
  message : String
deriving DecidableEq, Repr

/-- Data of a finished subprocess as the script observes it through
subprocess.CompletedProcess and subprocess.CalledProcessError. -/
structure CmdResult where
  returncode : Int
  stdout : String
  stderr : String
deriving DecidableEq, Repr

/-- The parsed argparse.Namespace of the script, field for field.  Optional
string options are `Option String` with `none` for an absent flag; Path-typed
options are also `Option String` (paths as strings); store_true flags are
`Bool`; the max-build-processing-wait option is an `Int` carrying the argparse
default 600 when the caller leaves it unset. -/
structure Args where
  xcode_project : Option String
  xcode_workspace : Option String
  scheme : Option String
  target : Option String
  configuration : Option String
  clean : Bool
  archive_directory : Option String
  ipa_directory : Option String
  export_options_plist : Option String
  remove_xcarchive : Bool
  key_identifier : Option String
  issuer_id : Option String
  private_key : Option String
  private_key_path : Option String
  apple_id : Option String
  app_specific_password : Option String
  submit_to_app_store : Bool
  version_string : Option String
  whats_new : Option String
  description : Option String
  keywords : Option String
  marketing_url : Option String
  support_url : Option String
  copyright : Option String
  earliest_release_date : Option String
  phased_release : Bool
  cancel_previous_submissions : Bool
  max_build_processing_wait : Int
  verbose : Bool
deriving DecidableEq, Repr

/-- Python truthiness of an optional str-typed option value: None and the empty
string are falsy, every other string is truthy. -/
def pyTruthy : Option String → Bool
  | none => false
  | some s => !(s == "")

/-- One optional str-valued flag, mirroring the pattern
`if args.x: cmd.extend([flag, args.x])` of the script. -/
def optFlag (flag : String) (v : Option String) : List String :=
  if pyTruthy v then [flag, v.getD ""] else []

/-- One optional Path-valued flag.  A pathlib.Path object is always truthy, so
presence of the option alone decides whether the flag is emitted. -/
def pathFlag (flag : String) : Option String → List String
  | some p => [flag, p]
  | none => []

/-- One store_true flag, mirroring `if args.x: cmd.append(flag)`. -/
def boolFlag (flag : String) (b : Bool) : List String :=
  if b then [flag] else []

/-- One int-valued flag guarded by Python int truthiness: the value zero is
falsy, so the flag is omitted for it. -/
def intFlag (flag : String) (n : Int) : List String :=
  if n = 0 then [] else [flag, toString n]

/-- The private-key flag pair of submit_to_app_store: the inline key wins when
truthy, otherwise a present key-file path is emitted with the file-reference
marker, mirroring `if args.private_key: ... elif args.private_key_path: ...`. -/
def privateKeySeg (key path : Option String) : List String :=
  if pyTruthy key then ["--private-key", key.getD ""]
  else if path.isSome then ["--private-key", "@file:" ++ path.getD ""]
  else []

/-- Project/workspace selection at the start of build_ipa: the project flag
when the project is given, the workspace flag as the elif branch, a raised
SubmitAppException when neither is given. -/
def projectSeg (proj ws : Option String) : Except SubmitAppException (List String) :=
  match proj with
  | some p => Except.ok ["--project", p]
  | none =>
    match ws with
    | some w => Except.ok ["--workspace", w]
    | none => Except.error ⟨"Either --xcode-project or --xcode-workspace must be specified"⟩

/-- The full build command line constructed by build_ipa, in source order, or
the configuration failure raised before any subprocess runs. -/
def buildCmdE (args : Args) : Except SubmitAppException (List String) :=
  match projectSeg args.xcode_project args.xcode_workspace with
  | Except.error e => Except.error e
  | Except.ok proj =>
    Except.ok (["python3", "-m", "codemagic.tools.xcode_project", "build-ipa"]
      ++ proj
      ++ optFlag "--scheme" args.scheme
      ++ optFlag "--target" args.target
      ++ optFlag "--configuration" args.configuration
      ++ boolFlag "--clean" args.clean
      ++ pathFlag "--archive-directory" args.archive_directory
      ++ pathFlag "--ipa-directory" args.ipa_directory
      ++ pathFlag "--export-options-plist" args.export_options_plist
      ++ boolFlag "--remove-xcarchive" args.remove_xcarchive)

/-- The full publish command line constructed by submit_to_app_store, in source
order, given the built package path. -/
def publishCmd (ipa : String) (args : Args) : List String :=
  ["python3", "-m", "codemagic.tools.app_store_connect", "publish", ipa]
  ++ optFlag "--key-id" args.key_identifier
  ++ optFlag "--issuer-id" args.issuer_id
  ++ privateKeySeg args.private_key args.private_key_path
  ++ optFlag "--apple-id" args.apple_id
  ++ optFlag "--app-specific-password" args.app_specific_password
  ++ boolFlag "--submit-to-app-store" args.submit_to_app_store
  ++ optFlag "--version-string" args.version_string
  ++ optFlag "--whats-new" args.whats_new
  ++ optFlag "--description" args.description
  ++ optFlag "--keywords" args.keywords
  ++ optFlag "--marketing-url" args.marketing_url
  ++ optFlag "--support-url" args.support_url
  ++ optFlag "--copyright" args.copyright
  ++ optFlag "--earliest-release-date" args.earliest_release_date
  ++ boolFlag "--enable-phased-release" args.phased_release
  ++ boolFlag "--cancel-previous-submissions" args.cancel_previous_submissions
  ++ intFlag "--max-build-processing-wait" args.max_build_processing_wait

/-- Characters removed by the default Python str.strip. -/
def isPySpace (c : Char) : Bool :=
  c == ' ' || c == '\t' || c == '\n' || c == '\r' || c == '\x0b' || c == '\x0c'

/-- Python str.strip with its default whitespace set, on the character list of
the string. -/
def pyStrip (s : String) : String :=
  String.mk (((s.data.dropWhile isPySpace).reverse.dropWhile isPySpace).reverse)

/-- Split a character list at newline characters, accumulator-style; this is
Python str.split with a newline separator, which keeps empty pieces. -/
def splitNl : List Char → List Char → List String
  | [], acc => [String.mk acc.reverse]
  | c :: cs, acc =>
    if c == '\n' then String.mk acc.reverse :: splitNl cs []
    else splitNl cs (c :: acc)

/-- The line list build_ipa scans: result.stdout stripped and split at
newlines. -/
def pyLines (s : String) : List String :=
  splitNl (pyStrip s).data []

/-- Python str.endswith on the character lists. -/
def strEndsWith (s pat : String) : Bool :=
  List.isSuffixOf pat.data s.data

/-- The stdout scan of build_ipa: the first output line that ends in the ipa
extension and names an existing file, if any.  The Python for-loop with break
is exactly a first-match search. -/
def findIpaLine (lines : List String) (fileExists : String → Bool) : Option String :=
  lines.find? (fun l => strEndsWith l ".ipa" && fileExists l)

/-- The default output directory used by the glob fallback when the caller gave
no ipa directory. -/
def defaultIpaDir : String := "build/ios/ipa"

/-- The external world a run observes: the outcome of the build subprocess, the
outcome of the publish subprocess, filesystem existence queries, and the
listing the glob fallback would return for a directory. -/
structure World where
  buildResult : CmdResult
  publishResult : CmdResult
  fileExists : String → Bool
  globIpa : String → List String

/-- Observable side effects of a run: a subprocess spawn with its argument
vector, or the fallback glob scan of a directory. -/
inductive Effect where
  | spawn : List String → Effect
  | glob : String → Effect
deriving DecidableEq, Repr

/-- Whether an effect is a spawn of the publish tool, recognised by the module
name in the argument vector. -/
def isPublishSpawn : Effect → Bool
  | Effect.spawn argv => argv.take 3 == ["python3", "-m", "codemagic.tools.app_store_connect"]
  | Effect.glob _ => false

/-- The build stage: construct the command (raising the configuration error
before any spawn when neither project nor workspace is given), spawn the build
subprocess, fail on a non-zero exit, otherwise take the first existing ipa line
of stdout, fall back to the glob of the configured or default ipa directory,
and fail when neither strategy finds a package. -/
def build_ipa (args : Args) (w : World) :
    Except SubmitAppException String × List Effect :=
  match buildCmdE args with
  | Except.error e => (Except.error e, [])
  | Except.ok cmd =>
    if w.buildResult.returncode = 0 then
      match findIpaLine (pyLines w.buildResult.stdout) w.fileExists with
      | some p => (Except.ok p, [Effect.spawn cmd])
      | none =>
        match w.globIpa (args.ipa_directory.getD defaultIpaDir) with
        | f :: _ =>
          (Except.ok f,
           [Effect.spawn cmd, Effect.glob (args.ipa_directory.getD defaultIpaDir)])
        | [] =>
          (Except.error ⟨"Could not find built IPA file"⟩,
           [Effect.spawn cmd, Effect.glob (args.ipa_directory.getD defaultIpaDir)])
    else (Except.error ⟨"IPA build failed"⟩, [Effect.spawn cmd])

/-- The publish stage: construct the publish command for the built package,
spawn the publish subprocess, and fail on a non-zero exit. -/
def submit_to_app_store (ipa : String) (args : Args) (w : World) :
    Except SubmitAppException Unit × List Effect :=
  if w.publishResult.returncode = 0 then
    (Except.ok (), [Effect.spawn (publishCmd ipa args)])
  else
    (Except.error ⟨"App Store Connect submission failed"⟩,
     [Effect.spawn (publishCmd ipa args)])

/-- The orchestrator submit_app: run the build stage, and only on its success
the publish stage; every SubmitAppException (and any unexpected exception) is
caught and mapped to sys.exit(1), success falls through to process exit 0.
The first component is the process exit status. -/
def submit_app (args : Args) (w : World) : Nat × List Effect :=
  match build_ipa args w with
  | (Except.error _, t) => (1, t)
  | (Except.ok ipa, t) =>
    match submit_to_app_store ipa args w with
    | (Except.error _, t2) => (1, t ++ t2)
    | (Except.ok _, t2) => (0, t ++ t2)

/-- The argparse mutually-exclusive required group on the project/workspace
pair: a parse succeeds exactly when one and only one of the two options was
supplied. -/
def argparseAccepts (args : Args) : Bool :=
  Bool.xor args.xcode_project.isSome args.xcode_workspace.isSome

/-- The whole command-line entry point: argparse rejects an invocation that
violates the mutually-exclusive required group with its documented usage exit
status 2, before the orchestrator (and hence any subprocess) runs; otherwise
the orchestrator decides the exit status. -/
def cliMain (args : Args) (w : World) : Nat × List Effect :=
  if argparseAccepts args then submit_app args w else (2, [])

/-- The argparse default of the max-build-processing-wait option. -/
def maxWaitDefault : Int := 600

/-- The fixed subdirectory the script points PYTHONPATH at: the cli-tools/src
directory below its own install location. -/
def cliToolsSrc (installDir : String) : String := installDir ++ "/cli-tools/src"

/-- Python dict union of two environments as used in the script,
second dict winning on shared keys. -/
def envMerge (base extra : String → Option String) : String → Option String :=
  fun k =>
    match extra k with
    | some v => some v
    | none => base k

/-- The one-entry environment dict both stages construct before spawning. -/
def extraEnv (installDir : String) : String → Option String :=
  fun k => if k = "PYTHONPATH" then some (cliToolsSrc installDir) else none

/-- Environment handed to the build subprocess: ambient os.environ merged with
the PYTHONPATH entry, the entry winning. -/
def buildSpawnEnv (installDir : String) (ambient : String → Option String) :
    String → Option String :=
  envMerge ambient (extraEnv installDir)

/-- Environment handed to the publish subprocess: the identical construction,
duplicated in the source exactly as in the build stage. -/
def publishSpawnEnv (installDir : String) (ambient : String → Option String) :
    String → Option String :=
  envMerge ambient (extraEnv installDir)

/-- A minimal parsed request: only the workspace is set, every optional field
is absent, every store_true flag is false, and the wait option carries its
parse-time default. -/
def argsW : Args :=
  { xcode_project := none
    xcode_workspace := some "App.xcworkspace"
    scheme := none
    target := none
    configuration := none
    clean := false
    archive_directory := none
    ipa_directory := none
    export_options_plist := none
    remove_xcarchive := false
    key_identifier := none
    issuer_id := none
    private_key := none
    private_key_path := none
    apple_id := none
    app_specific_password := none
    submit_to_app_store := false
    version_string := none
    whats_new := none
    description := none
    keywords := none
    marketing_url := none
    support_url := none
    copyright := none
    earliest_release_date := none
    phased_release := false
    cancel_previous_submissions := false
    max_build_processing_wait := maxWaitDefault
    verbose := false }

/-- A request that supplies neither the project nor the workspace path. -/
def argsNeither : Args := { argsW with xcode_workspace := none }

/-- A request that supplies both the project and the workspace path. -/
def argsBoth : Args := { argsW with xcode_project := some "App.xcodeproj" }

/-- A request that explicitly sets the wait option to zero. -/
def argsWait0 : Args := { argsW with max_build_processing_wait := 0 }

/-- World in which the build exits 0 and prints the package path of an existing
file, and the publish subprocess succeeds. -/
def wOk : World :=
  { buildResult := { returncode := 0, stdout := "out/App.ipa", stderr := "" }
    publishResult := { returncode := 0, stdout := "", stderr := "" }
    fileExists := fun s => s == "out/App.ipa"
    globIpa := fun _ => [] }

/-- World in which the build subprocess exits non-zero. -/
def wBuildFail : World :=
  { buildResult := { returncode := 65, stdout := "", stderr := "build broke" }
    publishResult := { returncode := 0, stdout := "", stderr := "" }
    fileExists := fun _ => false
    globIpa := fun _ => [] }

/-- World in which the build exits 0 with no usable output line and the glob of
every directory is empty. -/
def wNoIpa : World :=
  { buildResult := { returncode := 0, stdout := "done", stderr := "" }
    publishResult := { returncode := 0, stdout := "", stderr := "" }
    fileExists := fun _ => false
    globIpa := fun _ => [] }

/-- World in which the build exits 0 with no usable output line but the glob of
the default ipa directory has one match. -/
def wGlobHit : World :=
  { buildResult := { returncode := 0, stdout := "done", stderr := "" }
    publishResult := { returncode := 0, stdout := "", stderr := "" }
    fileExists := fun _ => false
    globIpa := fun d => if d == defaultIpaDir then ["build/ios/ipa/App.ipa"] else [] }

/-- An ambient environment that already defines PYTHONPATH. -/
def ambientPy : String → Option String :=
  fun k => if k = "PYTHONPATH" then some "/somewhere/else" else none

end SubmitAppTool

namespace SubmitAppTool

/-- The build command line for the workspace-only request argsW. -/
def buildCmdW : List String :=
  ["python3", "-m", "codemagic.tools.xcode_project", "build-ipa",
   "--workspace", "App.xcworkspace"]

/-- A successful find? returns a matching element and splits the list at its first
occurrence: every element before the hit fails the predicate. -/
theorem find?_first_decomp {α : Type} (p : α → Bool) :
    ∀ (l : List α) (a : α), l.find? p = some a →
      p a = true ∧ ∃ pre post, l = pre ++ a :: post ∧ ∀ x ∈ pre, p x = false := by
  intro l
  induction l with
  | nil => intro a h; simp [List.find?] at h
  | cons b t ih =>
    intro a h
    by_cases hb : p b
    · rw [List.find?_cons_of_pos _ hb] at h
      obtain rfl : b = a := by injection h
      exact ⟨hb, [], t, rfl, by intro x hx; cases hx⟩
    · rw [List.find?_cons_of_neg _ hb] at h
      obtain ⟨hpa, pre, post, hsplit, hpre⟩ := ih a h
      refine ⟨hpa, b :: pre, post, by rw [hsplit]; rfl, ?_⟩
      intro x hx
      rcases List.mem_cons.1 hx with rfl | hx2
      · simpa using hb
      · exact hpre x hx2

/-- Every command line produced by buildCmdE invokes the xcode_project module, so a spawn
of it is never a publish spawn. -/
theorem isPublishSpawn_of_buildCmdE (args : Args) (cmd : List String)
    (h : buildCmdE args = Except.ok cmd) : isPublishSpawn (Effect.spawn cmd) = false := by
  cases hp : projectSeg args.xcode_project args.xcode_workspace with
  | error e => simp [buildCmdE, hp] at h
  | ok proj =>
    simp only [buildCmdE, hp, Except.ok.injEq] at h
    subst h
    rfl

end SubmitAppTool

namespace SubmitAppTool

/-- C1: a request supplying both of, or neither of, the project path and the workspace path
fails the mutually-exclusive required argument group, so the run stops with that
configuration failure and an empty effect trace — no build or publish subprocess is ever
spawned for such a request.  In the neither case the guard at the top of build_ipa would
independently raise the configuration error before any spawn. -/
theorem c1_exclusive_pair_rejected_before_any_spawn (args : Args) (w : World)
    (h : (args.xcode_project = none ∧ args.xcode_workspace = none) ∨
         (args.xcode_project.isSome = true ∧ args.xcode_workspace.isSome = true)) :
    argparseAccepts args = false ∧ cliMain args w = (2, []) ∧
      (args.xcode_project = none ∧ args.xcode_workspace = none →
        buildCmdE args =
          Except.error ⟨"Either --xcode-project or --xcode-workspace must be specified"⟩) := by
  have ha : argparseAccepts args = false := by
    rcases h with ⟨hp, hw⟩ | ⟨hp, hw⟩
    · simp [argparseAccepts, hp, hw]
    · simp [argparseAccepts, hp, hw]
  refine ⟨ha, by simp [cliMain, ha], ?_⟩
  rintro ⟨hp, hw⟩
  simp [buildCmdE, projectSeg, hp, hw]

/-- Witness for C1 at a concrete request supplying neither path. -/
theorem c1_witness : cliMain argsNeither wOk = (2, []) :=
  (c1_exclusive_pair_rejected_before_any_spawn argsNeither wOk (Or.inl ⟨rfl, rfl⟩)).2.1

/-- C2: whenever the build stage fails — the build subprocess exits non-zero, or it exits
zero but neither the stdout scan nor the glob fallback locates a package — the orchestrator
exits with status 1 and its effect trace contains no publish-subprocess spawn. -/
theorem c2_build_failure_never_publishes (args : Args) (w : World)
    (h : w.buildResult.returncode ≠ 0 ∨
         (w.buildResult.returncode = 0 ∧
          findIpaLine (pyLines w.buildResult.stdout) w.fileExists = none ∧
          w.globIpa (args.ipa_directory.getD defaultIpaDir) = [])) :
    (submit_app args w).1 = 1 ∧
      ∀ e ∈ (submit_app args w).2, isPublishSpawn e = false := by
  cases hc : buildCmdE args with
  | error e =>
    have hb : build_ipa args w = (Except.error e, []) := by simp [build_ipa, hc]
    simp [submit_app, hb]
  | ok cmd =>
    have hps := isPublishSpawn_of_buildCmdE args cmd hc
    rcases h with hr | ⟨h0, hn, hg⟩
    · have hb : build_ipa args w = (Except.error ⟨"IPA build failed"⟩, [Effect.spawn cmd]) := by
        simp [build_ipa, hc, hr]
      have hs : submit_app args w = (1, [Effect.spawn cmd]) := by
        simp [submit_app, hb]
      rw [hs]
      refine ⟨rfl, ?_⟩
      intro e he
      rcases List.mem_cons.1 he with rfl | he2
      · exact hps
      · exact absurd he2 (List.not_mem_nil e)
    · have hb : build_ipa args w =
          (Except.error ⟨"Could not find built IPA file"⟩,
           [Effect.spawn cmd, Effect.glob (args.ipa_directory.getD defaultIpaDir)]) := by
        simp [build_ipa, hc, h0, hn, hg]
      have hs : submit_app args w =
          (1, [Effect.spawn cmd, Effect.glob (args.ipa_directory.getD defaultIpaDir)]) := by
        simp [submit_app, hb]
      rw [hs]
      refine ⟨rfl, ?_⟩
      intro e he
      rcases List.mem_cons.1 he with rfl | he2
      · exact hps
      · rcases List.mem_cons.1 he2 with rfl | he3
        · rfl
        · exact absurd he3 (List.not_mem_nil e)

/-- Witness for C2 at a concrete request and a world whose build subprocess exits 65. -/
theorem c2_witness : (submit_app argsW wBuildFail).1 = 1 :=
  (c2_build_failure_never_publishes argsW wBuildFail (Or.inl (by decide))).1

end SubmitAppTool

namespace SubmitAppTool

/-- C3: every optional field left unset contributes no token to the generated command
lines (its segment is empty), and every store_true flag contributes exactly its one flag
token when true and nothing when false; the final conjunct records that the publish
command line is exactly the concatenation of these per-field segments, so an empty
segment contributes no flag token to it. -/
theorem c3_optional_flags_omitted_or_single (args : Args) :
    (args.scheme = none → optFlag "--scheme" args.scheme = []) ∧
    (args.target = none → optFlag "--target" args.target = []) ∧
    (args.configuration = none → optFlag "--configuration" args.configuration = []) ∧
    (args.archive_directory = none →
      pathFlag "--archive-directory" args.archive_directory = []) ∧
    (args.ipa_directory = none → pathFlag "--ipa-directory" args.ipa_directory = []) ∧
    (args.export_options_plist = none →
      pathFlag "--export-options-plist" args.export_options_plist = []) ∧
    (args.key_identifier = none → optFlag "--key-id" args.key_identifier = []) ∧
    (args.issuer_id = none → optFlag "--issuer-id" args.issuer_id = []) ∧
    (args.private_key = none → args.private_key_path = none →
      privateKeySeg args.private_key args.private_key_path = []) ∧
    (args.apple_id = none → optFlag "--apple-id" args.apple_id = []) ∧
    (args.app_specific_password = none →
      optFlag "--app-specific-password" args.app_specific_password = []) ∧
    (args.version_string = none → optFlag "--version-string" args.version_string = []) ∧
    (args.whats_new = none → optFlag "--whats-new" args.whats_new = []) ∧
    (args.description = none → optFlag "--description" args.description = []) ∧
    (args.keywords = none → optFlag "--keywords" args.keywords = []) ∧
    (args.marketing_url = none → optFlag "--marketing-url" args.marketing_url = []) ∧
    (args.support_url = none → optFlag "--support-url" args.support_url = []) ∧
    (args.copyright = none → optFlag "--copyright" args.copyright = []) ∧
    (args.earliest_release_date = none →
      optFlag "--earliest-release-date" args.earliest_release_date = []) ∧
    (boolFlag "--clean" args.clean = if args.clean then ["--clean"] else []) ∧
    ((boolFlag "--clean" args.clean).count "--clean" = if args.clean then 1 else 0) ∧
    (boolFlag "--remove-xcarchive" args.remove_xcarchive =
      if args.remove_xcarchive then ["--remove-xcarchive"] else []) ∧
    ((boolFlag "--remove-xcarchive" args.remove_xcarchive).count "--remove-xcarchive" =
      if args.remove_xcarchive then 1 else 0) ∧
    (boolFlag "--submit-to-app-store" args.submit_to_app_store =
      if args.submit_to_app_store then ["--submit-to-app-store"] else []) ∧
    ((boolFlag "--submit-to-app-store" args.submit_to_app_store).count
        "--submit-to-app-store" = if args.submit_to_app_store then 1 else 0) ∧
    (boolFlag "--enable-phased-release" args.phased_release =
      if args.phased_release then ["--enable-phased-release"] else []) ∧
    ((boolFlag "--enable-phased-release" args.phased_release).count
        "--enable-phased-release" = if args.phased_release then 1 else 0) ∧
    (boolFlag "--cancel-previous-submissions" args.cancel_previous_submissions =
      if args.cancel_previous_submissions then ["--cancel-previous-submissions"] else []) ∧
    ((boolFlag "--cancel-previous-submissions" args.cancel_previous_submissions).count
        "--cancel-previous-submissions" =
      if args.cancel_previous_submissions then 1 else 0) ∧
    (∀ ipa, publishCmd ipa args =
      ["python3", "-m", "codemagic.tools.app_store_connect", "publish", ipa]
      ++ optFlag "--key-id" args.key_identifier
      ++ optFlag "--issuer-id" args.issuer_id
      ++ privateKeySeg args.private_key args.private_key_path
      ++ optFlag "--apple-id" args.apple_id
      ++ optFlag "--app-specific-password" args.app_specific_password
      ++ boolFlag "--submit-to-app-store" args.submit_to_app_store
      ++ optFlag "--version-string" args.version_string
      ++ optFlag "--whats-new" args.whats_new
      ++ optFlag "--description" args.description
      ++ optFlag "--keywords" args.keywords
      ++ optFlag "--marketing-url" args.marketing_url
      ++ optFlag "--support-url" args.support_url
      ++ optFlag "--copyright" args.copyright
      ++ optFlag "--earliest-release-date" args.earliest_release_date
      ++ boolFlag "--enable-phased-release" args.phased_release
      ++ boolFlag "--cancel-previous-submissions" args.cancel_previous_submissions
      ++ intFlag "--max-build-processing-wait" args.max_build_processing_wait) := by
  refine ⟨fun h => by rw [h]; rfl, fun h => by rw [h]; rfl, fun h => by rw [h]; rfl, fun h => by rw [h]; rfl,
    fun h => by rw [h]; rfl, fun h => by rw [h]; rfl, fun h => by rw [h]; rfl, fun h => by rw [h]; rfl,
    fun h1 h2 => by rw [h1, h2]; rfl, fun h => by rw [h]; rfl, fun h => by rw [h]; rfl, fun h => by rw [h]; rfl,
    fun h => by rw [h]; rfl, fun h => by rw [h]; rfl, fun h => by rw [h]; rfl, fun h => by rw [h]; rfl,
    fun h => by rw [h]; rfl, fun h => by rw [h]; rfl, fun h => by rw [h]; rfl,
    rfl, by cases args.clean <;> rfl,
    rfl, by cases args.remove_xcarchive <;> rfl,
    rfl, by cases args.submit_to_app_store <;> rfl,
    rfl, by cases args.phased_release <;> rfl,
    rfl, by cases args.cancel_previous_submissions <;> rfl,
    fun ipa => rfl⟩

/-- Witness for C3 at the all-optional-fields-unset request. -/
theorem c3_witness : optFlag "--scheme" argsW.scheme = [] :=
  (c3_optional_flags_omitted_or_single argsW).1 rfl

/-- C4: when the build subprocess exits zero and some stdout line ends in the package
extension and names an existing file, the builder returns exactly the first such line,
and the effect trace is the build spawn alone — the glob fallback is never consulted. -/
theorem c4_stdout_line_found_no_fallback (args : Args) (w : World) (cmd : List String)
    (hc : buildCmdE args = Except.ok cmd)
    (h0 : w.buildResult.returncode = 0)
    (hl : ∃ l ∈ pyLines w.buildResult.stdout,
            strEndsWith l ".ipa" = true ∧ w.fileExists l = true) :
    ∃ p, findIpaLine (pyLines w.buildResult.stdout) w.fileExists = some p ∧
      strEndsWith p ".ipa" = true ∧ w.fileExists p = true ∧
      (∃ pre post, pyLines w.buildResult.stdout = pre ++ p :: post ∧
        ∀ l ∈ pre, (strEndsWith l ".ipa" && w.fileExists l) = false) ∧
      build_ipa args w = (Except.ok p, [Effect.spawn cmd]) := by
  obtain ⟨l0, hmem, he, hx⟩ := hl
  cases hf : findIpaLine (pyLines w.buildResult.stdout) w.fileExists with
  | none =>
    exfalso
    have hnone := List.find?_eq_none.1 hf l0 hmem
    simp [he, hx] at hnone
  | some p =>
    obtain ⟨hp, pre, post, hsplit, hpre⟩ := find?_first_decomp _ _ p hf
    rw [Bool.and_eq_true] at hp
    refine ⟨p, rfl, hp.1, hp.2, ⟨pre, post, hsplit, hpre⟩, ?_⟩
    simp [build_ipa, hc, h0, hf]

/-- Witness for C4 at a concrete request and a world whose build prints the path of an
existing package. -/
theorem c4_witness :
    ∃ p, findIpaLine (pyLines wOk.buildResult.stdout) wOk.fileExists = some p ∧
      strEndsWith p ".ipa" = true ∧ wOk.fileExists p = true ∧
      (∃ pre post, pyLines wOk.buildResult.stdout = pre ++ p :: post ∧
        ∀ l ∈ pre, (strEndsWith l ".ipa" && wOk.fileExists l) = false) ∧
      build_ipa argsW wOk = (Except.ok p, [Effect.spawn buildCmdW]) :=
  c4_stdout_line_found_no_fallback argsW wOk buildCmdW rfl rfl
    ⟨"out/App.ipa", by decide, by decide, by decide⟩

/-- C5: when the build subprocess exits zero but no stdout line qualifies, the builder
scans the configured (or default) ipa directory and returns the first glob match; with an
empty listing it fails with the package-not-found build error.  Both outcomes perform the
glob scan after the single build spawn. -/
theorem c5_fallback_glob_or_error (args : Args) (w : World) (cmd : List String)
    (hc : buildCmdE args = Except.ok cmd)
    (h0 : w.buildResult.returncode = 0)
    (hn : findIpaLine (pyLines w.buildResult.stdout) w.fileExists = none) :
    (∀ f rest, w.globIpa (args.ipa_directory.getD defaultIpaDir) = f :: rest →
       build_ipa args w =
         (Except.ok f,
          [Effect.spawn cmd, Effect.glob (args.ipa_directory.getD defaultIpaDir)])) ∧
    (w.globIpa (args.ipa_directory.getD defaultIpaDir) = [] →
       build_ipa args w =
         (Except.error ⟨"Could not find built IPA file"⟩,
          [Effect.spawn cmd, Effect.glob (args.ipa_directory.getD defaultIpaDir)])) := by
  constructor
  · intro f rest hg
    simp [build_ipa, hc, h0, hn, hg]
  · intro hg
    simp [build_ipa, hc, h0, hn, hg]

/-- Witness for C5 at a concrete world with no usable stdout line and one glob match in
the default ipa directory. -/
theorem c5_witness :
    build_ipa argsW wGlobHit =
      (Except.ok "build/ios/ipa/App.ipa",
       [Effect.spawn buildCmdW, Effect.glob (argsW.ipa_directory.getD defaultIpaDir)]) :=
  (c5_fallback_glob_or_error argsW wGlobHit buildCmdW rfl rfl (by decide)).1
    "build/ios/ipa/App.ipa" [] (by decide)

end SubmitAppTool

namespace SubmitAppTool

/-- C6 counterexample: a caller-supplied wait of 0 is falsy for the Python int truthiness
guard, so the wait flag is omitted from the publish command line, refuting the claim that
the flag is always emitted. -/
theorem c6_counterexample_wait_zero_omitted :
    ¬ ("--max-build-processing-wait" ∈ publishCmd "out/App.ipa" argsWait0) := by decide

/-- C6 amended: the publish command line carries the wait flag with the caller value
whenever that value is nonzero — in particular with 600, the argparse default, when the
caller leaves the option unset — and the flag segment is empty when the caller supplies
zero. -/
theorem c6_amended_wait_flag (ipa : String) (args : Args) :
    (args.max_build_processing_wait ≠ 0 →
      List.IsSuffix
        ["--max-build-processing-wait", toString args.max_build_processing_wait]
        (publishCmd ipa args) ∧
      "--max-build-processing-wait" ∈ publishCmd ipa args) ∧
    (args.max_build_processing_wait = 0 →
      intFlag "--max-build-processing-wait" args.max_build_processing_wait = []) ∧
    maxWaitDefault = 600 ∧
    intFlag "--max-build-processing-wait" maxWaitDefault =
      ["--max-build-processing-wait", "600"] := by
  refine ⟨?_, ?_, rfl, by decide⟩
  · intro h
    have hseg : intFlag "--max-build-processing-wait" args.max_build_processing_wait =
        ["--max-build-processing-wait", toString args.max_build_processing_wait] := by
      rw [intFlag, if_neg h]
    have hsuf : List.IsSuffix
        ["--max-build-processing-wait", toString args.max_build_processing_wait]
        (publishCmd ipa args) := by
      rw [← hseg]
      exact ⟨_, rfl⟩
    exact ⟨hsuf, hsuf.subset (by simp)⟩
  · intro h
    rw [intFlag, if_pos h]

/-- Witness for C6 at a request leaving the wait option at its parse default. -/
theorem c6_witness : "--max-build-processing-wait" ∈ publishCmd "out/App.ipa" argsW :=
  ((c6_amended_wait_flag "out/App.ipa" argsW).1 (by decide)).2

/-- C7 counterexample: the invocation supplying neither project nor workspace — the
configuration-error case — exits with the argparse usage status 2, not with 1 as the
claim states. -/
theorem c7_counterexample_config_error_exits_two :
    (cliMain argsNeither wOk).1 = 2 ∧ (cliMain argsNeither wOk).1 ≠ 1 := by decide

/-- C7 amended: every invocation exits with status 0, 1 or 2 and never through an
unhandled fault; 0 exactly on full success (parse accepted, build stage produced a
package, publish subprocess exited zero), 1 on build, publish or unexpected failures
inside the orchestrator, and 2 when the mutually-exclusive project/workspace constraint
is violated at argument parsing. -/
theorem c7_amended_exit_codes (args : Args) (w : World) :
    ((cliMain args w).1 = 0 ∨ (cliMain args w).1 = 1 ∨ (cliMain args w).1 = 2) ∧
    (argparseAccepts args = false → cliMain args w = (2, [])) ∧
    (argparseAccepts args = true →
      (cliMain args w).1 = 0 ∨ (cliMain args w).1 = 1) ∧
    ((cliMain args w).1 = 0 ↔
      argparseAccepts args = true ∧
        (∃ ipa, (build_ipa args w).1 = Except.ok ipa) ∧
        w.publishResult.returncode = 0) := by
  cases ha : argparseAccepts args with
  | false =>
    have hm : cliMain args w = (2, []) := by simp [cliMain, ha]
    rw [hm]
    refine ⟨Or.inr (Or.inr rfl), fun _ => rfl, ?_, ?_⟩
    · intro hacc; cases hacc
    · constructor
      · intro h20; exact absurd h20 (by decide)
      · rintro ⟨hacc, -, -⟩; cases hacc
  | true =>
    have hm : cliMain args w = submit_app args w := by simp [cliMain, ha]
    rcases hb : build_ipa args w with ⟨r, t⟩
    cases r with
    | error e =>
      have hs : submit_app args w = (1, t) := by simp [submit_app, hb]
      rw [hm, hs]
      refine ⟨Or.inr (Or.inl rfl), ?_, fun _ => Or.inr rfl, ?_⟩
      · intro hacc; cases hacc
      · constructor
        · intro h10; exact absurd h10 (by simp)
        · rintro ⟨-, ⟨ipa, hok⟩, -⟩
          simp at hok
    | ok ipa0 =>
      by_cases hr : w.publishResult.returncode = 0
      · have hsub : submit_to_app_store ipa0 args w =
            (Except.ok (), [Effect.spawn (publishCmd ipa0 args)]) := by
          simp [submit_to_app_store, hr]
        have hs : submit_app args w = (0, t ++ [Effect.spawn (publishCmd ipa0 args)]) := by
          simp [submit_app, hb, hsub]
        rw [hm, hs]
        refine ⟨Or.inl rfl, ?_, fun _ => Or.inl rfl, ?_⟩
        · intro hacc; cases hacc
        · constructor
          · intro _
            exact ⟨rfl, ⟨ipa0, rfl⟩, hr⟩
          · intro _; rfl
      · have hsub : submit_to_app_store ipa0 args w =
            (Except.error ⟨"App Store Connect submission failed"⟩,
             [Effect.spawn (publishCmd ipa0 args)]) := by
          simp [submit_to_app_store, hr]
        have hs : submit_app args w = (1, t ++ [Effect.spawn (publishCmd ipa0 args)]) := by
          simp [submit_app, hb, hsub]
        rw [hm, hs]
        refine ⟨Or.inr (Or.inl rfl), ?_, fun _ => Or.inr rfl, ?_⟩
        · intro hacc; cases hacc
        · constructor
          · intro h10; exact absurd h10 (by simp)
          · rintro ⟨-, -, hr0⟩; exact absurd hr0 hr

/-- Witness for C7 at a concrete invocation supplying both paths: it is rejected at
parsing with exit status 2 and no effect. -/
theorem c7_witness : cliMain argsBoth wOk = (2, []) :=
  (c7_amended_exit_codes argsBoth wOk).2.1 rfl

end SubmitAppTool

namespace SubmitAppTool

/-- C8 counterexample: with an ambient environment that already defines PYTHONPATH, the
dict merge replaces the ambient value, so the subprocess environment is not the ambient
environment plus one additional variable — an ambient variable changed. -/
theorem c8_counterexample_ambient_pythonpath_overridden :
    ambientPy "PYTHONPATH" = some "/somewhere/else" ∧
    buildSpawnEnv "/opt/tool" ambientPy "PYTHONPATH" = some "/opt/tool/cli-tools/src" ∧
    buildSpawnEnv "/opt/tool" ambientPy "PYTHONPATH" ≠ ambientPy "PYTHONPATH" := by decide

/-- C8 amended: both subprocess environments equal the ambient environment with the
PYTHONPATH variable set — overriding any ambient value — to the fixed cli-tools/src
subdirectory of the install location, every other ambient variable unchanged; the two
stages construct the identical environment. -/
theorem c8_amended_env_pythonpath (installDir : String) (ambient : String → Option String) :
    buildSpawnEnv installDir ambient "PYTHONPATH" = some (cliToolsSrc installDir) ∧
    publishSpawnEnv installDir ambient "PYTHONPATH" = some (cliToolsSrc installDir) ∧
    (∀ k, k ≠ "PYTHONPATH" →
      buildSpawnEnv installDir ambient k = ambient k ∧
      publishSpawnEnv installDir ambient k = ambient k) ∧
    buildSpawnEnv installDir ambient = publishSpawnEnv installDir ambient := by
  refine ⟨rfl, rfl, fun k hk => ?_, rfl⟩
  constructor
  · simp [buildSpawnEnv, envMerge, extraEnv, hk]
  · simp [publishSpawnEnv, envMerge, extraEnv, hk]

/-- Witness for C8 at a concrete install location, ambient environment and variable. -/
theorem c8_witness : buildSpawnEnv "/opt/tool" ambientPy "PATH" = ambientPy "PATH" :=
  ((c8_amended_env_pythonpath "/opt/tool" ambientPy).2.2.1 "PATH" (by decide)).1

/-- C9: when the inline private key is supplied (truthy), only the inline flag/value pair
is emitted, whatever the key-file path holds; the file-reference form with the read-marker
is emitted exactly when the inline key is falsy and a path is present; with neither, the
segment is empty.  The three exhaustive cases show the two forms never both appear. -/
theorem c9_private_key_inline_wins (key path : Option String) :
    (pyTruthy key = true →
      privateKeySeg key path = ["--private-key", key.getD ""]) ∧
    (pyTruthy key = false → ∀ p, path = some p →
      privateKeySeg key path = ["--private-key", "@file:" ++ p]) ∧
    (pyTruthy key = false → path = none → privateKeySeg key path = []) := by
  refine ⟨?_, ?_, ?_⟩
  · intro h
    simp [privateKeySeg, h]
  · intro h p hp
    simp [privateKeySeg, h, hp]
  · intro h hp
    simp [privateKeySeg, h, hp]

/-- Witness for C9 at a request supplying both the inline key and the key-file path. -/
theorem c9_witness :
    privateKeySeg (some "INLINEKEY") (some "AuthKey.p8") = ["--private-key", "INLINEKEY"] :=
  (c9_private_key_inline_wins (some "INLINEKEY") (some "AuthKey.p8")).1 rfl

/-- C10: setting any of the sixteen optional str-typed fields to the empty string yields
exactly the command line obtained by leaving the field unset, because the Python truthiness
guard treats the empty string like None. -/
theorem c10_empty_string_like_unset (args : Args) (ipa : String) :
    publishCmd ipa { args with key_identifier := some "" } =
      publishCmd ipa { args with key_identifier := none } ∧
    publishCmd ipa { args with issuer_id := some "" } =
      publishCmd ipa { args with issuer_id := none } ∧
    publishCmd ipa { args with private_key := some "" } =
      publishCmd ipa { args with private_key := none } ∧
    publishCmd ipa { args with apple_id := some "" } =
      publishCmd ipa { args with apple_id := none } ∧
    publishCmd ipa { args with app_specific_password := some "" } =
      publishCmd ipa { args with app_specific_password := none } ∧
    publishCmd ipa { args with version_string := some "" } =
      publishCmd ipa { args with version_string := none } ∧
    publishCmd ipa { args with whats_new := some "" } =
      publishCmd ipa { args with whats_new := none } ∧
    publishCmd ipa { args with description := some "" } =
      publishCmd ipa { args with description := none } ∧
    publishCmd ipa { args with keywords := some "" } =
      publishCmd ipa { args with keywords := none } ∧
    publishCmd ipa { args with marketing_url := some "" } =
      publishCmd ipa { args with marketing_url := none } ∧
    publishCmd ipa { args with support_url := some "" } =
      publishCmd ipa { args with support_url := none } ∧
    publishCmd ipa { args with copyright := some "" } =
      publishCmd ipa { args with copyright := none } ∧
    publishCmd ipa { args with earliest_release_date := some "" } =
      publishCmd ipa { args with earliest_release_date := none } ∧
    buildCmdE { args with scheme := some "" } = buildCmdE { args with scheme := none } ∧
    buildCmdE { args with target := some "" } = buildCmdE { args with target := none } ∧
    buildCmdE { args with configuration := some "" } =
      buildCmdE { args with configuration := none } :=
  ⟨rfl, rfl, rfl, rfl, rfl, rfl, rfl, rfl, rfl, rfl, rfl, rfl, rfl, rfl, rfl, rfl⟩

end SubmitAppTool
